import Mathlib

/-!
Verification of the deterministic intent-classification core of the
negotiation service: `MockLocalProvider` in
`services/negotiation/providers/mock_local.py` together with the scoring
helpers in `services/negotiation/providers/_scoring.py`.

Modelling conventions:

* Python strings are Lean `String`s; all matching primitives operate on the
  underlying `List Char` (via `String.data`) with structural recursion so
  that every predicate is kernel-computable.
* The provider's compiled regexes are alternations and `.*`-separated
  literal sequences with `re.IGNORECASE`.  Since `.` in Python regexes does
  not match a newline and every literal in the patterns is newline-free,
  `re.search(a.*b.*c, s)` holds iff some newline-delimited line of `s`
  contains the (lower-cased) literals `a`, `b`, `c` in order without
  overlap; the earliest-occurrence scan below decides exactly that.
  Pure alternations of literals (`trade|deal|exchange`) reduce to
  case-insensitive substring containment.
* `datetime.now()` is modelled by its `hour` field (a `Nat`, `0..23`),
  the only component the code manipulates: the ultimatum branches call
  `datetime.now().replace(hour=datetime.now().hour + k)`, which raises
  `ValueError("hour must be in 0..23")` when `hour + k > 23` and otherwise
  returns the current datetime with only the hour replaced (so the produced
  deadline is exactly `k` hours in the future).  Fallible code returns
  `Except String _`.
* Intent `timestamp` fields (`datetime.now()`, never read back by the
  classifier) are omitted from the embedded intent records.
* Python dicts read via `.get` are association lists with an explicit
  lookup returning `Option`.
-/

/-! ## String primitives (Python `str` operations on `List Char`) -/

/-- Lower-casing of a Python string (`str.lower`); the texts and patterns
involved are ASCII, where `Char.toLower` agrees with Python. -/
def lowerL (l : List Char) : List Char := l.map Char.toLower

/-- Whether `needle` is a prefix of `hay` (Boolean, structural). -/
def isPrefixL : List Char → List Char → Bool
  | [], _ => true
  | _ :: _, [] => false
  | a :: as, b :: bs => a == b && isPrefixL as bs

/-- Python `needle in hay` substring containment. -/
def containsL (needle : List Char) : List Char → Bool
  | [] => isPrefixL needle []
  | c :: t => isPrefixL needle (c :: t) || containsL needle t

/-- Drop everything up to and including the first occurrence of `needle`;
`none` when `needle` does not occur. -/
def dropThroughL (needle : List Char) : List Char → Option (List Char)
  | [] => if isPrefixL needle [] then some ([].drop needle.length) else none
  | c :: t =>
    if isPrefixL needle (c :: t) then some ((c :: t).drop needle.length)
    else dropThroughL needle t

/-- The literals occur in `hay` in order, without overlap (the semantics of
`l₀.*l₁.*…*lₙ` within one line); decided by the earliest-occurrence scan,
which is complete for this pattern family. -/
def seqMatchL : List (List Char) → List Char → Bool
  | [], _ => true
  | n :: ns, hay =>
    match dropThroughL n hay with
    | some rest => seqMatchL ns rest
    | none => false

/-- Split on every character satisfying `p`, keeping empty pieces
(the shape of Python `str.split(sep)` per separator char). -/
def splitOnPredL (p : Char → Bool) : List Char → List (List Char)
  | [] => [[]]
  | c :: t =>
    if p c then [] :: splitOnPredL p t
    else
      match splitOnPredL p t with
      | [] => [[c]]
      | l :: ls => (c :: l) :: ls

/-- The ASCII whitespace class of Python `str.split()` with no argument. -/
def pyIsSpace (c : Char) : Bool :=
  c == ' ' || c == '\t' || c == '\n' || c == '\x0b' || c == '\x0c' || c == '\r'

/-- Python `str.split()`: split on whitespace runs, discarding empties. -/
def pyWordsL (l : List Char) : List (List Char) :=
  (splitOnPredL pyIsSpace l).filter (fun w => w ≠ [])

/-- Semantics of `re.search` for a `.*`-separated literal sequence with `IGNORECASE`:
some newline-delimited line contains the literals in order (see header). -/
def searchSeq (needles : List String) (s : String) : Bool :=
  (splitOnPredL (fun c => c == '\n') (lowerL s.data)).any
    (fun line => seqMatchL (needles.map String.data) line)

/-- Semantics of `re.search` for an alternation of plain literals with `IGNORECASE`. -/
def searchAny (needles : List String) (s : String) : Bool :=
  needles.any (fun n => containsL n.data (lowerL s.data))

/-! ## The provider's compiled patterns (`MockLocalProvider.__init__`) -/

/-- Pattern `self._patterns["counter_offer"] = grant.*access.*if.*withdraw.*troops`. -/
def pat_counter_offer (s : String) : Bool :=
  searchSeq ["grant", "access", "if", "withdraw", "troops"] s

/-- Pattern `self._patterns["ultimatum"] = ceasefire.*now.*or else|deadline.*final`. -/
def pat_ultimatum (s : String) : Bool :=
  searchSeq ["ceasefire", "now", "or else"] s || searchSeq ["deadline", "final"] s

/-- Pattern `self._patterns["trade"] = trade|deal|exchange`. -/
def pat_trade (s : String) : Bool :=
  searchAny ["trade", "deal", "exchange"] s

/-- Pattern `self._patterns["aggressive"] = war|attack|threaten|destroy`. -/
def pat_aggressive (s : String) : Bool :=
  searchAny ["war", "attack", "threaten", "destroy"] s

/-- Pattern `self._patterns["cooperative"] = peace|alliance|cooperate|help`. -/
def pat_cooperative (s : String) : Bool :=
  searchAny ["peace", "alliance", "cooperate", "help"] s

/-- Predicate `MockLocalProvider._contains_unsafe_content`: any of the three unsafe
regex families matches (each is an alternation of plain literals). -/
def contains_unsafe_content (s : String) : Bool :=
  searchAny ["hate", "discriminat", "racist", "sexist"] s ||
  searchAny ["violent", "kill", "murder", "assassinat", "violence"] s ||
  searchAny ["threat", "bomb", "weapon", "attack", "war"] s

/-- Function `MockLocalProvider._get_matched_patterns`: names of matching patterns,
in the insertion order of `self._patterns`. -/
def get_matched_patterns (s : String) : List String :=
  (if pat_counter_offer s then ["counter_offer"] else []) ++
  (if pat_ultimatum s then ["ultimatum"] else []) ++
  (if pat_trade s then ["trade"] else []) ++
  (if pat_aggressive s then ["aggressive"] else []) ++
  (if pat_cooperative s then ["cooperative"] else [])

/-! ## Data model (`schemas/models.py`, restricted to the fields the
classifier reads or writes) -/

/-- Model of `SpeakerTurnModel`: the classifier reads only `speaker_id` and `text`
(`timestamp`, `confidence`, `sentiment` are never consulted). -/
structure SpeakerTurn where
  speaker_id : String
  text : String
deriving DecidableEq, Repr

/-- Model of `WorldContextModel`: `scenario_tags` plus the two faction dicts, which
the provider only reads through `.get("id")`; faction dicts are association
lists of string keys and values (`current_state` is never consulted). -/
structure WorldContext where
  scenario_tags : List String
  initiator_faction : List (String × String)
  counterpart_faction : List (String × String)
deriving DecidableEq, Repr

/-- Python `dict.get(k)`: `none` when the key is absent. -/
def dict_get (d : List (String × String)) (k : String) : Option String :=
  (d.find? (fun p => p.1 == k)).map Prod.snd

/-- A value inside an intent's `terms` / `counter_terms` dict. -/
inductive TermVal where
  | b (v : Bool)
  | s (v : String)
  | n (v : Int)
  | l (v : List String)
deriving DecidableEq, Repr

/-- Model of `IntentModel = Union[ProposalModel, ConcessionModel, CounterOfferModel,
UltimatumModel, SmallTalkModel]`.  `deadline` is represented by the hour of
the produced datetime (see file header); `timestamp` fields are omitted. -/
inductive Intent where
  | proposal (speaker_id content intent_type : String)
      (terms : List (String × TermVal)) (confidence : Option ℚ)
  | concession (speaker_id content concession_type : String) (value : ℚ)
  | counter_offer (speaker_id content original_proposal_id : String)
      (counter_terms : List (String × TermVal)) (confidence : Option ℚ)
  | ultimatum (speaker_id content : String) (deadline_hour : ℕ)
      (consequences : List String)
  | small_talk (speaker_id content topic : String)
deriving DecidableEq, Repr

/-- The `type` discriminant of each intent model. -/
def Intent.type : Intent → String
  | .proposal .. => "proposal"
  | .concession .. => "concession"
  | .counter_offer .. => "counter_offer"
  | .ultimatum .. => "ultimatum"
  | .small_talk .. => "small_talk"

/-- The `speaker_id` field every intent variant carries. -/
def Intent.speaker : Intent → String
  | .proposal sid .. => sid
  | .concession sid .. => sid
  | .counter_offer sid .. => sid
  | .ultimatum sid .. => sid
  | .small_talk sid .. => sid

/-- The `content` field every intent variant carries. -/
def Intent.content : Intent → String
  | .proposal _ c .. => c
  | .concession _ c .. => c
  | .counter_offer _ c .. => c
  | .ultimatum _ c .. => c
  | .small_talk _ c .. => c

/-- The `consequences` list of an ultimatum (empty for other variants). -/
def Intent.consequences : Intent → List String
  | .ultimatum _ _ _ cs => cs
  | _ => []

/-- The deadline hour of an ultimatum. -/
def Intent.deadline? : Intent → Option ℕ
  | .ultimatum _ _ d _ => some d
  | _ => none

/-! ## Events (the wire shape of `mock_local.py`'s construction sites)

The repository holds divergent copies of the event dataclasses (the
`providers/base.py` bundled here spells `Safety(flag=..., detail=...)`,
while `mock_local.py` and the spec's §6 wire contract use
`Safety(is_safe=..., flags=..., severity=..., reason=...)`).  Following the
spec, the events are embedded with the fields `mock_local.py` passes at
each `yield`; event `timestamp`s (auto-filled `datetime.now()`) are
omitted. -/

/-- The payload dict of each `Analysis` event `mock_local.py` emits. -/
inductive AnalysisPayload where
  | turn_analysis (turn_type : String) (content_length : ℕ) (sentiment : String)
  | strict_mode_violation (blocked_content violation_type processing_mode : String)
  | deterministic_analysis (matched_patterns : List String)
      (intent_detected processing_mode : String)
deriving DecidableEq, Repr

/-- Model of `ProviderEvent = Union[NewIntent, LiveSubtitle, Analysis, Safety]`. -/
inductive Event where
  | safety (is_safe : Bool) (flags : List String) (severity reason : String)
  | live_subtitle (text : String) (start_time end_time : ℚ)
      (speaker_id : String) (is_final : Bool)
  | new_intent (intent : Intent) (confidence : ℚ) (justification : String)
  | analysis (analysis_type : String) (result : AnalysisPayload) (confidence : ℚ)
deriving DecidableEq, Repr

/-- Boolean event-kind discriminators used to state sequence contracts. -/
def is_safety_event : Event → Bool
  | .safety .. => true
  | _ => false

def is_subtitle_event : Event → Bool
  | .live_subtitle .. => true
  | _ => false

def is_intent_event : Event → Bool
  | .new_intent .. => true
  | _ => false

def is_analysis_event : Event → Bool
  | .analysis .. => true
  | _ => false

/-- The `severity` field of a safety event. -/
def Event.severity? : Event → Option String
  | .safety _ _ sev _ => some sev
  | _ => none

/-! ## Intent construction (`MockLocalProvider._detect_intent_from_text`)

Every branch reads the AI speaker from
`world_context.counterpart_faction.get("id", "ai_diplomat")`. -/

/-- Speaker id used for every intent the provider constructs. -/
def counterpart_speaker (wc : WorldContext) : String :=
  (dict_get wc.counterpart_faction "id").getD "ai_diplomat"

/-- Intent literal of the `counter_offer` branch. -/
def counter_offer_intent (wc : WorldContext) : Intent :=
  .counter_offer (counterpart_speaker wc)
    "We will grant trade access to your merchants if you withdraw your military forces from the disputed territories."
    "player_trade_proposal_1"
    [("trade_access_granted", .b true), ("withdrawal_required", .b true),
     ("territories", .l ["northern_border", "southern_pass"]), ("duration", .s "2_years")]
    (some 1)

/-- Intent literal of the `ultimatum` branch; `h` is the already-replaced
deadline hour (`datetime.now().hour + 1`). -/
def ultimatum_intent (wc : WorldContext) (h : ℕ) : Intent :=
  .ultimatum (counterpart_speaker wc)
    "Cease fire immediately or face severe consequences. This is our final warning."
    h
    ["Full military mobilization", "Trade embargo", "Alliance termination"]

/-- Intent literal of the `trade` branch. -/
def trade_proposal_intent (wc : WorldContext) : Intent :=
  .proposal (counterpart_speaker wc)
    "I propose we establish a basic trade agreement to improve our economic relations."
    "trade"
    [("trade_volume", .n 500), ("duration", .s "1_year"), ("goods", .l ["grain", "textiles"])]
    (some (9/10))

/-- Intent literal of the `aggressive` branch; `h` is the already-replaced
deadline hour (`datetime.now().hour + 2`). -/
def aggressive_ultimatum_intent (wc : WorldContext) (h : ℕ) : Intent :=
  .ultimatum (counterpart_speaker wc)
    "We cannot tolerate such aggressive rhetoric. Cease immediately or face diplomatic isolation."
    h
    ["Diplomatic isolation", "Economic sanctions"]

/-- Intent literal of the `cooperative` branch. -/
def cooperative_concession_intent (wc : WorldContext) : Intent :=
  .concession (counterpart_speaker wc)
    "I am willing to consider cooperative measures to resolve our differences."
    "diplomatic"
    25

/-- Intent literal of the default small-talk fallback. -/
def default_small_talk_intent (wc : WorldContext) : Intent :=
  .small_talk (counterpart_speaker wc)
    "I understand your position. Perhaps we can discuss this matter further in a more constructive manner."
    "diplomatic_relations"

/-- Intent literal of the empty-history greeting in `stream_dialogue`. -/
def greeting_intent (wc : WorldContext) : Intent :=
  .small_talk (counterpart_speaker wc)
    "Greetings. I understand we have matters to discuss regarding our diplomatic relations."
    "diplomatic_relations"

/-- Error message of Python `datetime.replace` when given an hour above 23;
`replace(hour=h)` succeeds exactly when `h ≤ 23`. -/
def hour_range_error : String := "hour must be in 0..23"

/-- Model of `MockLocalProvider._detect_intent_from_text`: the pattern
priority chain.  `hour` is `datetime.now().hour` at the time of the call;
the two ultimatum-shaped branches evaluate
`datetime.now().replace(hour=datetime.now().hour + k)` (`k` = 1 resp. 2),
which raises `ValueError` when the incremented hour exceeds 23.  The
function otherwise always returns an intent (the final branch is an
unconditional small-talk fallback, so the declared `Optional` result is
never `None`). -/
def detect_intent_from_text (text : String) (wc : WorldContext) (hour : ℕ) :
    Except String Intent :=
  if pat_counter_offer text then .ok (counter_offer_intent wc)
  else if pat_ultimatum text then
    if hour + 1 ≤ 23 then .ok (ultimatum_intent wc (hour + 1))
    else .error hour_range_error
  else if pat_trade text then .ok (trade_proposal_intent wc)
  else if pat_aggressive text then
    if hour + 2 ≤ 23 then .ok (aggressive_ultimatum_intent wc (hour + 2))
    else .error hour_range_error
  else if pat_cooperative text then .ok (cooperative_concession_intent wc)
  else .ok (default_small_talk_intent wc)

/-! ## Confidence scoring (`MockLocalProvider._calculate_confidence_score`) -/

/-- Keyword set `set(intent.content.lower().split())`, as a deduplicated
token list (only cardinalities and membership are consumed). -/
def intent_keywords (content : String) : List (List Char) :=
  (pyWordsL (lowerL content.data)).dedup

/-- Keyword set `set(" ".join(world_context.scenario_tags).lower().split())`. -/
def context_keywords (tags : List String) : List (List Char) :=
  (pyWordsL (lowerL (List.intercalate [' '] (tags.map String.data)))).dedup

/-- Ratio `overlap / len(intent_keywords)` of the scorer, as the exact
rational `mkRat overlap len` (equal to the division whenever
`len ≠ 0`, which the guarding branch ensures before this is evaluated). -/
def overlap_ratio (content : String) (tags : List String) : ℚ :=
  mkRat
    (((intent_keywords content).filter
        (fun w => w ∈ context_keywords tags)).length : ℤ)
    ((intent_keywords content).length)

/-- Model of `MockLocalProvider._calculate_confidence_score`: base 0.8,
blended towards the keyword-overlap ratio when scenario tags and both
keyword sets are non-empty, multiplied by 0.7 for content under 10
characters, then clamped by `min(1.0, max(0.1, ·))`. -/
def calculate_confidence_score (intent : Intent) (wc : WorldContext) : ℚ :=
  let base : ℚ := 8/10
  let base :=
    if !wc.scenario_tags.isEmpty then
      if !(intent_keywords intent.content).isEmpty &&
         !(context_keywords wc.scenario_tags).isEmpty then
        base * (1/2 + 1/2 * overlap_ratio intent.content wc.scenario_tags)
      else base
    else base
  let base := if intent.content.data.length < 10 then base * (7/10) else base
  min 1 (max (1/10) base)

/-- Model of `MockLocalProvider._generate_validation_justification`. -/
def generate_validation_justification (intent : Intent) (confidence : ℚ) : String :=
  let parts := ["Schema validation passed"] ++
    [if confidence > 8/10 then "High context relevance"
     else if confidence > 1/2 then "Moderate context relevance"
     else "Low context relevance"] ++
    (let matched := get_matched_patterns intent.content
     if !matched.isEmpty then ["Pattern matches: " ++ String.intercalate ", " matched]
     else [])
  String.intercalate ". " parts

/-- Model of `MockLocalProvider.validate_and_score_intent`.  The schema
validation step calls `schemas.validators.validator.validate_intent`, whose
outcome depends on YAML schema files under `protocol/schemas/` that are not
part of the source tree; its result is therefore passed in as
`schema_error` (`none` = validation passed, `some e` = it raised `e`).  On
failure the original intent is returned with confidence 0.1 and the error
text in the justification; on success the context-aware score and
justification are attached. -/
def validate_and_score_intent (intent : Intent) (wc : WorldContext)
    (schema_error : Option String) : Intent × ℚ × String :=
  match schema_error with
  | some e => (intent, 1/10, "Validation failed: " ++ e)
  | none =>
    let confidence := calculate_confidence_score intent wc
    (intent, confidence, generate_validation_justification intent confidence)

/-! ## Event sequencing (`MockLocalProvider.stream_dialogue`) -/

/-- The unconditional first event of every `stream_dialogue` call. -/
def safety_init_event : Event :=
  .safety true ["deterministic_mode"] "info" "Operating in deterministic mock mode"

/-- Truncation `text[:50] + "..." if len(text) > 50 else text` of the
strict-mode analysis payload. -/
def blocked_content (text : String) : String :=
  if text.data.length > 50 then String.mk (text.data.take 50) ++ "..." else text

/-- Interim subtitle text `text[:len(text)//2] + "..."`. -/
def interim_subtitle_text (text : String) : String :=
  String.mk (text.data.take (text.data.length / 2)) ++ "..."

/-- Model of `MockLocalProvider.stream_dialogue`.  The result is the list
of events the async generator yields, paired with the uncaught exception
message if one escapes (`none` when the generator finishes normally).
`strict` is `self.strict` (from the constructor config), `hour` is
`datetime.now().hour` during intent detection, and `schema_error` is the
outcome of the external schema validation (see
`validate_and_score_intent`).  Pacing (`asyncio.sleep`) is dropped.  Note
the detection step runs before any subtitle is yielded, so when it raises,
only the initial safety event has been emitted. -/
def stream_dialogue (strict : Bool) (turns : List SpeakerTurn)
    (world_context : WorldContext) (hour : ℕ) (schema_error : Option String) :
    List Event × Option String :=
  match turns.getLast? with
  | none =>
    ([safety_init_event,
      .new_intent (greeting_intent world_context) 1
        "Initial greeting in diplomatic negotiations"], none)
  | some last_turn =>
    if some last_turn.speaker_id != dict_get world_context.initiator_faction "id" then
      ([safety_init_event,
        .analysis "turn_analysis"
          (.turn_analysis "ai_response" last_turn.text.data.length "neutral")
          (8/10)], none)
    else
      let text := last_turn.text
      if strict && contains_unsafe_content text then
        ([safety_init_event,
          .safety false ["unsafe_content"] "high"
            "Strict mode detected potentially unsafe content",
          .analysis "strict_mode_violation"
            (.strict_mode_violation (blocked_content text) "unsafe_content" "strict")
            (9/10)], none)
      else
        match detect_intent_from_text text world_context hour with
        | .error e => ([safety_init_event], some e)
        | .ok intent =>
          let scored := validate_and_score_intent intent world_context schema_error
          ([safety_init_event,
            .live_subtitle (interim_subtitle_text text) 0 (1/2)
              last_turn.speaker_id false,
            .live_subtitle text 0 1 last_turn.speaker_id true,
            .new_intent scored.1 scored.2.1 scored.2.2,
            .analysis "deterministic_analysis"
              (.deterministic_analysis (get_matched_patterns text) intent.type
                (if strict then "strict" else "permissive"))
              (85/100)], none)

/-! ## Overall scoring (`providers/_scoring.py`, `calculate_overall_score`) -/

/-- A value stored under one of the four score keys: a Python number
(`isinstance(v, (int, float))`) or any non-numeric value. -/
inductive ScoreVal where
  | num (q : ℚ)
  | non_num
deriving DecidableEq, Repr

/-- Model of the `scores` dict restricted to the four required keys
(`calculate_overall_score` never reads any other key); `none` means the key
is absent. -/
structure ScoresDict where
  trust : Option ScoreVal
  leverage : Option ScoreVal
  face_saving : Option ScoreVal
  confidence : Option ScoreVal
deriving DecidableEq, Repr

/-- Contribution `scores[key] * weights[key]` of one key to the weighted
sum; the generator filters out non-numeric values (`isinstance` guard), so
they contribute nothing. -/
def num_contrib (v : Option ScoreVal) (w : ℚ) : ℚ :=
  match v with
  | some (.num q) => q * w
  | _ => 0

/-- Model of `calculate_overall_score`: raises
`ValueError("Missing required score keys: ...")` when any of the four
required keys is absent; otherwise sums `scores[k] * weights[k]` over the
keys holding numeric values (weights `trust=0.3, leverage=0.2,
face_saving=0.2, confidence=0.3`) and clamps with `max(0.0, min(1.0, ·))`.
The inner `except (TypeError, ValueError)` guard (returning 0.3) is
unreachable, because the `isinstance` filter already excludes every value
the arithmetic could fail on. -/
def calculate_overall_score (scores : ScoresDict) : Except String ℚ :=
  if scores.trust.isNone || scores.leverage.isNone ||
     scores.face_saving.isNone || scores.confidence.isNone then
    .error "Missing required score keys"
  else
    .ok (max 0 (min 1
      (num_contrib scores.trust (3/10) + num_contrib scores.leverage (2/10) +
       num_contrib scores.face_saving (2/10) + num_contrib scores.confidence (3/10))))

/-! ## Sample data and path lemmas -/

/-- A concrete world context (the fixture shape of
`tests/providers/test_mock_local.py`), used by witnesses. -/
def sample_context : WorldContext :=
  ⟨["diplomatic", "trade"], [("id", "player")], [("id", "ai_diplomat")]⟩

example : pat_counter_offer "We'll grant trade access if you withdraw troops" = true := by decide
example : pat_trade "We'll grant trade access if you withdraw troops" = true := by decide
example : pat_ultimatum "Ceasefire now or else" = true := by decide
example : contains_unsafe_content "Let us start a war" = true := by decide
example : contains_unsafe_content "I propose peace" = false := by decide
example : pat_counter_offer "grant\naccess if withdraw troops" = false := by decide

/-- Empty-history path of `stream_dialogue`: safety, then the greeting
intent, and the generator returns. -/
theorem stream_dialogue_empty (strict : Bool) (wc : WorldContext) (hour : ℕ)
    (schema_error : Option String) :
    stream_dialogue strict [] wc hour schema_error =
      ([safety_init_event,
        .new_intent (greeting_intent wc) 1 "Initial greeting in diplomatic negotiations"],
       none) := rfl

/-- Non-player (AI) last-turn path of `stream_dialogue`: safety, then a
`turn_analysis` event, and the generator returns. -/
theorem stream_dialogue_ai_turn (strict : Bool) (turns : List SpeakerTurn)
    (wc : WorldContext) (hour : ℕ) (schema_error : Option String) (lt : SpeakerTurn)
    (h : turns.getLast? = some lt)
    (hb : (some lt.speaker_id == dict_get wc.initiator_faction "id") = false) :
    stream_dialogue strict turns wc hour schema_error =
      ([safety_init_event,
        .analysis "turn_analysis"
          (.turn_analysis "ai_response" lt.text.data.length "neutral") (8/10)],
       none) := by
  have hb' : (some lt.speaker_id != dict_get wc.initiator_faction "id") = true := by
    simp [bne, hb]
  simp [stream_dialogue, h, hb']

/-- Strict-violation path of `stream_dialogue`: safety, a second
high-severity safety event, a `strict_mode_violation` analysis, return. -/
theorem stream_dialogue_strict_blocked (strict : Bool) (turns : List SpeakerTurn)
    (wc : WorldContext) (hour : ℕ) (schema_error : Option String) (lt : SpeakerTurn)
    (h : turns.getLast? = some lt)
    (hb : (some lt.speaker_id == dict_get wc.initiator_faction "id") = true)
    (hu : (strict && contains_unsafe_content lt.text) = true) :
    stream_dialogue strict turns wc hour schema_error =
      ([safety_init_event,
        .safety false ["unsafe_content"] "high"
          "Strict mode detected potentially unsafe content",
        .analysis "strict_mode_violation"
          (.strict_mode_violation (blocked_content lt.text) "unsafe_content" "strict")
          (9/10)],
       none) := by
  have hb' : (some lt.speaker_id != dict_get wc.initiator_faction "id") = false := by
    simp [bne, hb]
  simp [stream_dialogue, h, hb', hu]

/-- Completed classification path of `stream_dialogue`: safety, interim
subtitle, final subtitle, one intent event, one trailing analysis. -/
theorem stream_dialogue_ok (strict : Bool) (turns : List SpeakerTurn)
    (wc : WorldContext) (hour : ℕ) (schema_error : Option String) (lt : SpeakerTurn)
    (i : Intent)
    (h : turns.getLast? = some lt)
    (hb : (some lt.speaker_id == dict_get wc.initiator_faction "id") = true)
    (hu : (strict && contains_unsafe_content lt.text) = false)
    (hd : detect_intent_from_text lt.text wc hour = .ok i) :
    stream_dialogue strict turns wc hour schema_error =
      ([safety_init_event,
        .live_subtitle (interim_subtitle_text lt.text) 0 (1/2) lt.speaker_id false,
        .live_subtitle lt.text 0 1 lt.speaker_id true,
        .new_intent (validate_and_score_intent i wc schema_error).1
          (validate_and_score_intent i wc schema_error).2.1
          (validate_and_score_intent i wc schema_error).2.2,
        .analysis "deterministic_analysis"
          (.deterministic_analysis (get_matched_patterns lt.text) i.type
            (if strict then "strict" else "permissive"))
          (85/100)],
       none) := by
  have hb' : (some lt.speaker_id != dict_get wc.initiator_faction "id") = false := by
    simp [bne, hb]
  simp [stream_dialogue, h, hb', hu, hd]

/-- Raising path of `stream_dialogue`: intent detection raises before any
subtitle is yielded, so the exception escapes right after the initial
safety event. -/
theorem stream_dialogue_raises (strict : Bool) (turns : List SpeakerTurn)
    (wc : WorldContext) (hour : ℕ) (schema_error : Option String) (lt : SpeakerTurn)
    (e : String)
    (h : turns.getLast? = some lt)
    (hb : (some lt.speaker_id == dict_get wc.initiator_faction "id") = true)
    (hu : (strict && contains_unsafe_content lt.text) = false)
    (hd : detect_intent_from_text lt.text wc hour = .error e) :
    stream_dialogue strict turns wc hour schema_error = ([safety_init_event], some e) := by
  have hb' : (some lt.speaker_id != dict_get wc.initiator_faction "id") = false := by
    simp [bne, hb]
  simp [stream_dialogue, h, hb', hu, hd]

/-! ## Claim theorems -/

/-- C8: with an empty turn history (and strict mode off) `stream_dialogue`
emits, after the unconditional safety event, a small-talk greeting intent
with confidence exactly 1.0 and then stops; the greeting is the defined
initial state and its event is the last one emitted. -/
theorem c8_empty_history_greeting (wc : WorldContext) (hour : ℕ)
    (schema_error : Option String) :
    stream_dialogue false [] wc hour schema_error =
      ([safety_init_event,
        .new_intent (greeting_intent wc) 1 "Initial greeting in diplomatic negotiations"],
       none) ∧
    (greeting_intent wc).type = "small_talk" :=
  ⟨rfl, rfl⟩

/-- C2 counterexample: calling `calculate_overall_score` with the
`confidence` key missing raises `ValueError` instead of returning 0.3, so
the claim's "does not raise and returns exactly 0.3" is false on this
input. -/
theorem c2_missing_key_counterexample :
    calculate_overall_score
        ⟨some (.num (1/2)), some (.num (1/2)), some (.num (1/2)), none⟩ =
      .error "Missing required score keys" ∧
    ∀ q : ℚ,
      calculate_overall_score
          ⟨some (.num (1/2)), some (.num (1/2)), some (.num (1/2)), none⟩ ≠
        .ok q :=
  ⟨rfl, fun _ h => Except.noConfusion h⟩

/-- C2 (amended): with all four keys present and numeric the result is the
weighted sum with weights trust=0.3, leverage=0.2, face_saving=0.2,
confidence=0.3 clamped to [0,1]; with a required key missing the function
raises `ValueError` (it does not return 0.3); with all keys present but a
non-numeric value the function does not raise and returns the clamped
weighted sum over the numeric keys only (again not 0.3 in general). -/
theorem c2_overall_score_amended (t l f c : ℚ) (s : ScoresDict) :
    (calculate_overall_score ⟨some (.num t), some (.num l), some (.num f), some (.num c)⟩ =
      .ok (max 0 (min 1 (t * (3/10) + l * (2/10) + f * (2/10) + c * (3/10))))) ∧
    (s.trust = none ∨ s.leverage = none ∨ s.face_saving = none ∨ s.confidence = none →
      calculate_overall_score s = .error "Missing required score keys") ∧
    (calculate_overall_score ⟨some .non_num, some (.num l), some (.num f), some (.num c)⟩ =
      .ok (max 0 (min 1 (l * (2/10) + f * (2/10) + c * (3/10))))) := by
  refine ⟨rfl, ?_, ?_⟩
  · rintro (h | h | h | h) <;> simp [calculate_overall_score, h]
  · show Except.ok (max 0 (min 1 (0 + l * (2/10) + f * (2/10) + c * (3/10)))) = _
    rw [zero_add]

/-- C2 witness: the amended theorem applied to a concrete malformed map. -/
theorem c2_overall_score_amended_witness :
    calculate_overall_score ⟨none, none, none, none⟩ =
      .error "Missing required score keys" :=
  (c2_overall_score_amended 0 0 0 0 ⟨none, none, none, none⟩).2.1 (Or.inl rfl)

/-- C7: on `"Ceasefire now or else"` the classifier does return an
ultimatum whose deadline hour is the call hour plus one and whose
consequences list is non-empty — but constructing it CAN fail: at
wall-clock hour 23 the `datetime.now().replace(hour=datetime.now().hour+1)`
deadline computation raises `ValueError("hour must be in 0..23")`, so the
claim's "never fails, regardless of the wall-clock time" is contradicted by
the code (the spec's intent, one hour in the future, is clearly meant). -/
theorem c7_ultimatum_deadline_eval :
    detect_intent_from_text "Ceasefire now or else" sample_context 12 =
      .ok (ultimatum_intent sample_context 13) ∧
    (ultimatum_intent sample_context 13).deadline? = some (12 + 1) ∧
    (ultimatum_intent sample_context 13).consequences ≠ [] ∧
    detect_intent_from_text "Ceasefire now or else" sample_context 23 =
      .error hour_range_error :=
  ⟨rfl, rfl, by decide, rfl⟩

/-- C5: empty (or generally pattern-free) last-turn text indeed degrades to
the default small-talk branch without raising, and the full event sequence
completes — but classification is NOT exception-free for every input: a
player turn reaching the `aggressive` branch at wall-clock hour 22 makes
the `replace(hour=hour+2)` deadline computation raise `ValueError`, which
escapes `stream_dialogue` right after the initial safety event. -/
theorem c5_smalltalk_fallback_and_raise :
    detect_intent_from_text "" sample_context 22 =
      .ok (default_small_talk_intent sample_context) ∧
    (stream_dialogue false [⟨"player", ""⟩] sample_context 22 none).2 = none ∧
    (stream_dialogue false [⟨"player", "We should attack immediately"⟩]
        sample_context 22 none) =
      ([safety_init_event], some hour_range_error) :=
  ⟨rfl, rfl, rfl⟩

/-- C4: a turn matching the counter-offer pattern classifies as
`counter_offer` regardless of any other pattern (in particular the generic
trade pattern) also matching: the counter-offer branch is first in the
priority chain and short-circuits, so the result is never a proposal. -/
theorem c4_counter_offer_priority (text : String) (wc : WorldContext) (hour : ℕ)
    (h₁ : pat_counter_offer text = true) (h₂ : pat_trade text = true) :
    detect_intent_from_text text wc hour = .ok (counter_offer_intent wc) ∧
    (counter_offer_intent wc).type = "counter_offer" := by
  refine ⟨?_, rfl⟩
  simp [detect_intent_from_text, h₁]

/-- C4 witness: the canonical phrase matches both patterns and classifies
as a counter-offer. -/
theorem c4_counter_offer_priority_witness :
    detect_intent_from_text "We'll grant trade access if you withdraw troops"
        sample_context 0 =
      .ok (counter_offer_intent sample_context) ∧
    (counter_offer_intent sample_context).type = "counter_offer" :=
  c4_counter_offer_priority "We'll grant trade access if you withdraw troops"
    sample_context 0 (by decide) (by decide)

/-- C10: every intent the classifier constructs — the empty-history
greeting and every pattern branch — carries the counterpart faction's
`id` (default `"ai_diplomat"` when the key is absent) as its
`speaker_id`. -/
theorem c10_speaker_is_counterpart :
    (∀ text wc hour i, detect_intent_from_text text wc hour = Except.ok i →
      i.speaker = (dict_get wc.counterpart_faction "id").getD "ai_diplomat") ∧
    (∀ wc, (greeting_intent wc).speaker =
      (dict_get wc.counterpart_faction "id").getD "ai_diplomat") := by
  refine ⟨?_, fun _ => rfl⟩
  intro text wc hour i h
  unfold detect_intent_from_text at h
  split_ifs at h <;>
    first
      | exact Except.noConfusion h
      | (cases h; rfl)

/-- C10 witness: the trade branch at a concrete input. -/
theorem c10_speaker_is_counterpart_witness :
    (trade_proposal_intent sample_context).speaker =
      (dict_get sample_context.counterpart_faction "id").getD "ai_diplomat" :=
  c10_speaker_is_counterpart.1 "I want to trade resources" sample_context 0
    (trade_proposal_intent sample_context) rfl

/-- C3: in strict mode, when the last turn is a player turn whose text
matches an unsafe-content pattern (e.g. contains "kill" or "war"), the
emitted sequence contains a safety event with severity "high" and contains
no intent event. -/
theorem c3_strict_safety_gating (turns : List SpeakerTurn) (wc : WorldContext)
    (hour : ℕ) (schema_error : Option String) (lt : SpeakerTurn)
    (h₁ : turns.getLast? = some lt)
    (h₂ : (some lt.speaker_id == dict_get wc.initiator_faction "id") = true)
    (h₃ : contains_unsafe_content lt.text = true) :
    (∃ e ∈ (stream_dialogue true turns wc hour schema_error).1,
      is_safety_event e = true ∧ e.severity? = some "high") ∧
    ∀ e ∈ (stream_dialogue true turns wc hour schema_error).1,
      is_intent_event e = false := by
  rw [stream_dialogue_strict_blocked true turns wc hour schema_error lt h₁ h₂
    (by simp [h₃])]
  constructor
  · exact ⟨.safety false ["unsafe_content"] "high"
      "Strict mode detected potentially unsafe content", by simp, rfl, rfl⟩
  · intro e he
    simp only [List.mem_cons, List.not_mem_nil, or_false] at he
    rcases he with rfl | rfl | rfl <;> rfl

/-- C3 witness: the gating theorem at the concrete unsafe text "kill". -/
theorem c3_strict_safety_gating_witness :
    (∃ e ∈ (stream_dialogue true [⟨"player", "kill"⟩] sample_context 12 none).1,
      is_safety_event e = true ∧ e.severity? = some "high") ∧
    ∀ e ∈ (stream_dialogue true [⟨"player", "kill"⟩] sample_context 12 none).1,
      is_intent_event e = false :=
  c3_strict_safety_gating [⟨"player", "kill"⟩] sample_context 12 none
    ⟨"player", "kill"⟩ rfl (by decide) (by decide)

/-- C6: whenever `stream_dialogue` emits any subtitle events, the last of
them is final (`is_final = true`) and carries the last input turn's text
verbatim. -/
theorem c6_final_subtitle_fidelity (strict : Bool) (turns : List SpeakerTurn)
    (wc : WorldContext) (hour : ℕ) (schema_error : Option String) (lt : SpeakerTurn)
    (h : turns.getLast? = some lt)
    (hne : (stream_dialogue strict turns wc hour schema_error).1.filter
      is_subtitle_event ≠ []) :
    ((stream_dialogue strict turns wc hour schema_error).1.filter
      is_subtitle_event).getLast? =
      some (.live_subtitle lt.text 0 1 lt.speaker_id true) := by
  cases hb : (some lt.speaker_id == dict_get wc.initiator_faction "id") with
  | false =>
    rw [stream_dialogue_ai_turn strict turns wc hour schema_error lt h hb] at hne
    simp [safety_init_event, is_subtitle_event] at hne
  | true =>
    cases hu : (strict && contains_unsafe_content lt.text) with
    | true =>
      rw [stream_dialogue_strict_blocked strict turns wc hour schema_error lt h hb hu] at hne
      simp [safety_init_event, is_subtitle_event] at hne
    | false =>
      cases hd : detect_intent_from_text lt.text wc hour with
      | error e =>
        rw [stream_dialogue_raises strict turns wc hour schema_error lt e h hb hu hd] at hne
        simp [safety_init_event, is_subtitle_event] at hne
      | ok i =>
        rw [stream_dialogue_ok strict turns wc hour schema_error lt i h hb hu hd]
        simp [safety_init_event, is_subtitle_event]

/-- C6 witness: the fidelity theorem at a concrete trade turn. -/
theorem c6_final_subtitle_fidelity_witness :
    ((stream_dialogue false [⟨"player", "I propose a trade agreement"⟩]
        sample_context 12 none).1.filter is_subtitle_event).getLast? =
      some (.live_subtitle "I propose a trade agreement" 0 1 "player" true) :=
  c6_final_subtitle_fidelity false [⟨"player", "I propose a trade agreement"⟩]
    sample_context 12 none ⟨"player", "I propose a trade agreement"⟩ rfl (by decide)

/-- Closed form of `_calculate_confidence_score` when the scenario tags and
both keyword sets are non-empty: the overlap blend applies, then the
short-content multiplier, then the clamp. -/
theorem calculate_confidence_score_formula (i : Intent) (wc : WorldContext)
    (h₁ : wc.scenario_tags.isEmpty = false)
    (h₂ : (intent_keywords i.content).isEmpty = false)
    (h₃ : (context_keywords wc.scenario_tags).isEmpty = false) :
    calculate_confidence_score i wc =
      min 1 (max (1/10)
        ((8/10) * (1/2 + 1/2 * overlap_ratio i.content wc.scenario_tags) *
          (if i.content.data.length < 10 then (7/10 : ℚ) else 1))) := by
  unfold calculate_confidence_score
  rw [h₁, h₂, h₃]
  simp only [Bool.not_false, Bool.and_self, if_true]
  by_cases hl : i.content.data.length < 10
  · rw [if_pos hl, if_pos hl]
  · rw [if_neg hl, if_neg hl]
    exact congrArg (fun x => min 1 (max (1/10 : ℚ) x)) (by ring)

/-- C9: the confidence returned by `_calculate_confidence_score` always
lies in [0.1, 1.0] (never 0, never above 1), and — for inputs where the
overlap adjustment applies and whose contents fall in the same length
class — a higher keyword-overlap ratio never decreases the returned
confidence. -/
theorem c9_confidence_bounds_and_monotonicity :
    (∀ i wc, 1/10 ≤ calculate_confidence_score i wc ∧
      calculate_confidence_score i wc ≤ 1) ∧
    (∀ i₁ wc₁ i₂ wc₂,
      wc₁.scenario_tags.isEmpty = false →
      wc₂.scenario_tags.isEmpty = false →
      (intent_keywords i₁.content).isEmpty = false →
      (context_keywords wc₁.scenario_tags).isEmpty = false →
      (intent_keywords i₂.content).isEmpty = false →
      (context_keywords wc₂.scenario_tags).isEmpty = false →
      (i₁.content.data.length < 10 ↔ i₂.content.data.length < 10) →
      overlap_ratio i₁.content wc₁.scenario_tags ≤
        overlap_ratio i₂.content wc₂.scenario_tags →
      calculate_confidence_score i₁ wc₁ ≤ calculate_confidence_score i₂ wc₂) := by
  constructor
  · intro i wc
    unfold calculate_confidence_score
    exact ⟨le_min (by norm_num) (le_max_left _ _), min_le_left _ _⟩
  · intro i₁ wc₁ i₂ wc₂ ha₁ ha₂ hb₁ hc₁ hb₂ hc₂ hlen hr
    rw [calculate_confidence_score_formula i₁ wc₁ ha₁ hb₁ hc₁,
        calculate_confidence_score_formula i₂ wc₂ ha₂ hb₂ hc₂]
    have hmult : (if i₁.content.data.length < 10 then (7/10 : ℚ) else 1) =
        (if i₂.content.data.length < 10 then (7/10 : ℚ) else 1) := by
      by_cases h : i₁.content.data.length < 10
      · rw [if_pos h, if_pos (hlen.mp h)]
      · rw [if_neg h, if_neg (fun hh => h (hlen.mpr hh))]
    rw [← hmult]
    refine min_le_min (le_refl 1) (max_le_max (le_refl _) ?_)
    have hm : (0 : ℚ) ≤ (if i₁.content.data.length < 10 then (7/10 : ℚ) else 1) := by
      split <;> norm_num
    refine mul_le_mul_of_nonneg_right ?_ hm
    refine mul_le_mul_of_nonneg_left ?_ (by norm_num)
    linarith

/-- C9 witness: overlap ratio 0 versus 1 at fixed content length: the
higher-overlap content scores at least as high. -/
theorem c9_confidence_bounds_and_monotonicity_witness :
    calculate_confidence_score (.small_talk "x" "alpha" "t") ⟨["trade"], [], []⟩ ≤
      calculate_confidence_score (.small_talk "x" "trade" "t") ⟨["trade"], [], []⟩ :=
  c9_confidence_bounds_and_monotonicity.2
    (.small_talk "x" "alpha" "t") ⟨["trade"], [], []⟩
    (.small_talk "x" "trade" "t") ⟨["trade"], [], []⟩
    (by decide) (by decide) (by decide) (by decide) (by decide) (by decide)
    (by decide) (by decide)

/-- C1 counterexample: the empty-history call is a classification attempt
(it emits a non-empty event sequence) yet emits NO analysis event at all —
its sequence ends with the greeting intent event — so "the sequence ends
with exactly one trailing analysis event" and "every classification attempt
yields at least a safety event and an analysis event" are false. -/
theorem c1_contract_counterexample :
    (stream_dialogue false [] sample_context 12 none).1.filter is_analysis_event = [] ∧
    (stream_dialogue false [] sample_context 12 none).1 ≠ [] ∧
    ((stream_dialogue false [] sample_context 12 none).1.getLast?.map
      is_intent_event) = some true :=
  ⟨rfl, by decide, rfl⟩

/-- C1 (amended): every `stream_dialogue` call emits a safety event first
and at most one intent event, but the rest of the claimed contract holds
only per path: on empty history the sequence is the safety event followed
by exactly one intent event and NO analysis event; on a non-player last
turn it is safety then one analysis event; on a strict-mode violation a
SECOND (high-severity) safety event precedes the trailing analysis; and on
a completed classification pass the sequence is exactly one safety event,
two subtitle events, one intent event and one trailing analysis event. -/
theorem c1_event_contract_amended (strict : Bool) (turns : List SpeakerTurn)
    (wc : WorldContext) (hour : ℕ) (schema_error : Option String) :
    (∃ e rest, (stream_dialogue strict turns wc hour schema_error).1 = e :: rest ∧
      is_safety_event e = true) ∧
    (stream_dialogue strict turns wc hour schema_error).1.countP is_intent_event ≤ 1 ∧
    (turns = [] →
      ∃ i, (stream_dialogue strict turns wc hour schema_error).1 =
          [safety_init_event, i] ∧
        is_intent_event i = true ∧
        (stream_dialogue strict turns wc hour schema_error).1.countP
          is_analysis_event = 0) ∧
    (∀ lt, turns.getLast? = some lt →
      ((some lt.speaker_id == dict_get wc.initiator_faction "id") = false →
        ∃ a, (stream_dialogue strict turns wc hour schema_error).1 =
            [safety_init_event, a] ∧
          is_analysis_event a = true) ∧
      ((some lt.speaker_id == dict_get wc.initiator_faction "id") = true →
        (strict && contains_unsafe_content lt.text) = true →
        ∃ s a, (stream_dialogue strict turns wc hour schema_error).1 =
            [safety_init_event, s, a] ∧
          is_safety_event s = true ∧ s.severity? = some "high" ∧
          is_analysis_event a = true) ∧
      ((some lt.speaker_id == dict_get wc.initiator_faction "id") = true →
        (strict && contains_unsafe_content lt.text) = false →
        (stream_dialogue strict turns wc hour schema_error).2 = none →
        ∃ s₁ s₂ i a, (stream_dialogue strict turns wc hour schema_error).1 =
            [safety_init_event, s₁, s₂, i, a] ∧
          is_subtitle_event s₁ = true ∧ is_subtitle_event s₂ = true ∧
          is_intent_event i = true ∧ is_analysis_event a = true)) := by
  cases hgl : turns.getLast? with
  | none =>
    have hs : stream_dialogue strict turns wc hour schema_error =
        ([safety_init_event,
          .new_intent (greeting_intent wc) 1
            "Initial greeting in diplomatic negotiations"], none) := by
      simp [stream_dialogue, hgl]
    refine ⟨⟨safety_init_event, _, by rw [hs], rfl⟩, ?_, ?_, ?_⟩
    · rw [hs]
      simp [List.countP_cons, is_intent_event, safety_init_event]
    · intro _
      exact ⟨.new_intent (greeting_intent wc) 1
          "Initial greeting in diplomatic negotiations",
        by rw [hs], rfl,
        by rw [hs]; simp [List.countP_cons, is_analysis_event, safety_init_event]⟩
    · intro lt hlt
      exact Option.noConfusion hlt
  | some lt =>
    have hturns : turns ≠ [] := by
      intro h
      rw [h] at hgl
      exact Option.noConfusion hgl
    cases hb : (some lt.speaker_id == dict_get wc.initiator_faction "id") with
    | false =>
      have hs := stream_dialogue_ai_turn strict turns wc hour schema_error lt hgl hb
      refine ⟨⟨safety_init_event, _, by rw [hs], rfl⟩, ?_, fun h => absurd h hturns, ?_⟩
      · rw [hs]
        simp [List.countP_cons, is_intent_event, safety_init_event]
      · intro lt' hlt'
        cases hlt'
        refine ⟨fun _ => ⟨.analysis "turn_analysis"
            (.turn_analysis "ai_response" lt.text.data.length "neutral") (8/10),
            by rw [hs], rfl⟩, fun hb' => ?_, fun hb' => ?_⟩ <;>
          (rw [hb] at hb'; exact Bool.noConfusion hb')
    | true =>
      cases hu : (strict && contains_unsafe_content lt.text) with
      | true =>
        have hs := stream_dialogue_strict_blocked strict turns wc hour
          schema_error lt hgl hb hu
        refine ⟨⟨safety_init_event, _, by rw [hs], rfl⟩, ?_,
          fun h => absurd h hturns, ?_⟩
        · rw [hs]
          simp [List.countP_cons, is_intent_event, safety_init_event]
        · intro lt' hlt'
          cases hlt'
          refine ⟨fun hb' => ?_,
            fun _ _ => ⟨.safety false ["unsafe_content"] "high"
                "Strict mode detected potentially unsafe content",
              .analysis "strict_mode_violation"
                (.strict_mode_violation (blocked_content lt.text) "unsafe_content"
                  "strict") (9/10),
              by rw [hs], rfl, rfl, rfl⟩,
            fun _ hu' => ?_⟩
          · rw [hb] at hb'
            exact Bool.noConfusion hb'
          · rw [hu] at hu'
            exact Bool.noConfusion hu'
      | false =>
        cases hd : detect_intent_from_text lt.text wc hour with
        | error e =>
          have hs := stream_dialogue_raises strict turns wc hour schema_error
            lt e hgl hb hu hd
          refine ⟨⟨safety_init_event, _, by rw [hs], rfl⟩, ?_,
            fun h => absurd h hturns, ?_⟩
          · rw [hs]
            simp [List.countP_cons, is_intent_event, safety_init_event]
          · intro lt' hlt'
            cases hlt'
            refine ⟨fun hb' => ?_, fun _ hu' => ?_, fun _ _ h2 => ?_⟩
            · rw [hb] at hb'
              exact Bool.noConfusion hb'
            · rw [hu] at hu'
              exact Bool.noConfusion hu'
            · rw [hs] at h2
              exact Option.noConfusion h2
        | ok i =>
          have hs := stream_dialogue_ok strict turns wc hour schema_error
            lt i hgl hb hu hd
          refine ⟨⟨safety_init_event, _, by rw [hs], rfl⟩, ?_,
            fun h => absurd h hturns, ?_⟩
          · rw [hs]
            simp [List.countP_cons, is_intent_event, safety_init_event,
              is_subtitle_event, is_analysis_event]
          · intro lt' hlt'
            cases hlt'
            refine ⟨fun hb' => ?_, fun _ hu' => ?_,
              fun _ _ _ => ⟨.live_subtitle (interim_subtitle_text lt.text) 0 (1/2)
                  lt.speaker_id false,
                .live_subtitle lt.text 0 1 lt.speaker_id true,
                .new_intent (validate_and_score_intent i wc schema_error).1
                  (validate_and_score_intent i wc schema_error).2.1
                  (validate_and_score_intent i wc schema_error).2.2,
                .analysis "deterministic_analysis"
                  (.deterministic_analysis (get_matched_patterns lt.text) i.type
                    (if strict then "strict" else "permissive")) (85/100),
                by rw [hs], rfl, rfl, rfl, rfl⟩⟩
            · rw [hb] at hb'
              exact Bool.noConfusion hb'
            · rw [hu] at hu'
              exact Bool.noConfusion hu'

/-- C1 witness: the amended contract's completed-pass clause at a concrete
small-talk turn. -/
theorem c1_event_contract_amended_witness :
    ∃ s₁ s₂ i a,
      (stream_dialogue false [⟨"player", "hello there"⟩] sample_context 12 none).1 =
        [safety_init_event, s₁, s₂, i, a] ∧
      is_subtitle_event s₁ = true ∧ is_subtitle_event s₂ = true ∧
      is_intent_event i = true ∧ is_analysis_event a = true :=
  (((c1_event_contract_amended false [⟨"player", "hello there"⟩] sample_context
      12 none).2.2.2 ⟨"player", "hello there"⟩ rfl).2.2) (by decide) (by decide) rfl
